import Mathlib

/-! Shallow embedding of the cart state manager of `src/public/script.js`
(the `AppState` object, its persistence through the `localStorage`
`'cart'` slot, the rendered quantity-change handler, and the checkout
branch of `handleFormSubmission`), together with proofs about it.

JavaScript numbers are modelled exactly: a value is either an exact
rational or `NaN` (`JsNum`).  The `localStorage` `'cart'` slot is
modelled at the granularity of the platform's `JSON.parse`: the slot is
absent, holds a malformed string (on which `JSON.parse` throws), or
holds a string that parses to a JSON value (`StoreContent`).
-/

/-- A JavaScript number as this program produces them: an exact rational
or `NaN`. -/
inductive JsNum where
  | nan : JsNum
  | num (q : ℚ) : JsNum
deriving DecidableEq, Repr

/-- JavaScript `x + y` on numbers: `NaN` absorbs. -/
def jsAdd : JsNum → JsNum → JsNum
  | JsNum.num a, JsNum.num b => JsNum.num (a + b)
  | _, _ => JsNum.nan

/-- JavaScript `p * x` with a plain rational `p`: `NaN` absorbs. -/
def jsMulP (p : ℚ) : JsNum → JsNum
  | JsNum.num q => JsNum.num (p * q)
  | JsNum.nan => JsNum.nan

/-- JavaScript `Math.max(1, x)`: `Math.max` returns `NaN` whenever an
argument is `NaN`. -/
def jsMaxOne : JsNum → JsNum
  | JsNum.num q => JsNum.num (max 1 q)
  | JsNum.nan => JsNum.nan

/-- One cart line, the object `{ ...product, quantity }` pushed by
`addToCart` (script.js line 18): the product's `id`, `name`, `price`
plus a `quantity`. -/
structure CartLine where
  id : Int
  name : String
  price : ℚ
  quantity : JsNum
deriving DecidableEq, Repr

/-- A product reference `{ id, name, price }` as built by the add-to-cart
click handler (script.js lines 364-368). -/
structure Product where
  id : Int
  name : String
  price : ℚ
deriving DecidableEq, Repr

/-- A JSON value (the result of `JSON.parse`, the argument of
`JSON.stringify`). -/
inductive Json where
  | null : Json
  | bool (b : Bool) : Json
  | num (q : ℚ) : Json
  | str (s : String) : Json
  | arr (elems : List Json) : Json
  | obj (fields : List (String × Json)) : Json

/-- JavaScript truthiness of a JSON value: `null`, `false`, `0` and `""`
are falsy; every array and object is truthy. -/
def jsTruthy : Json → Bool
  | Json.null => false
  | Json.bool b => b
  | Json.num q => if q = 0 then false else true
  | Json.str s => if s = "" then false else true
  | Json.arr _ => true
  | Json.obj _ => true

/-- JavaScript `a || b`: `b` when `a` is falsy. -/
def jsOr (a b : Json) : Json := if jsTruthy a then a else b

/-- The `localStorage` `'cart'` slot, abstracted at the granularity of
`JSON.parse` applied to the stored text: the key is absent (`getItem`
returns `null`), the stored string is malformed (so `JSON.parse`
throws), or the stored string parses to a JSON value. -/
inductive StoreContent where
  | absent : StoreContent
  | malformed : StoreContent
  | json (v : Json) : StoreContent

/-- A notification emitted by `showNotification(message, type)`
(script.js lines 70-85). -/
structure Notif where
  message : String
  kind : String
deriving DecidableEq, Repr

/-- The observable state the claims are about: the in-memory cart
(`AppState.cart`), the `localStorage` `'cart'` slot, the number of
`setItem('cart', ...)` writes performed, and the notifications emitted
so far in order. -/
structure Env where
  cart : List CartLine
  store : StoreContent
  storeWrites : Nat
  notifs : List Notif

/-- Encoding of a quantity by `JSON.stringify`: `NaN` has no JSON representation and
is rendered as `null`. -/
def encodeJsNum : JsNum → Json
  | JsNum.num q => Json.num q
  | JsNum.nan => Json.null

/-- Encoding of one cart line by `JSON.stringify`, field order as constructed by
`addToCart`: the spread product fields `id`, `name`, `price`, then
`quantity`. -/
def encodeLine (l : CartLine) : Json :=
  Json.obj [("id", Json.num (l.id : ℚ)), ("name", Json.str l.name),
            ("price", Json.num l.price), ("quantity", encodeJsNum l.quantity)]

/-- Encoding of the cart array by `JSON.stringify`. -/
def encodeCart (c : List CartLine) : Json :=
  Json.arr (c.map encodeLine)

/-- Function `saveCart()` (script.js lines 8-10):
`localStorage.setItem('cart', JSON.stringify(this.cart))`. -/
def saveCart (s : Env) : Env :=
  { s with store := StoreContent.json (encodeCart s.cart),
           storeWrites := s.storeWrites + 1 }

/-- Function `showNotification(message, type)`: appends one notification. -/
def showNotification (message kind : String) (s : Env) : Env :=
  { s with notifs := s.notifs ++ [⟨message, kind⟩] }

/-- Statement `existingItem.quantity += 1` applied to the item found by
`this.cart.find(item => item.id === product.id)`: the first line with
the given id gets its quantity incremented by one. -/
def bumpFirst (pid : Int) : List CartLine → List CartLine
  | [] => []
  | l :: ls =>
    if l.id = pid then { l with quantity := jsAdd l.quantity (JsNum.num 1) } :: ls
    else l :: bumpFirst pid ls

/-- The cart transition of `addToCart` (script.js lines 13-19): if a line
with matching id exists, increment its quantity by 1, otherwise push
`{ ...product, quantity: 1 }`. -/
def addCart (p : Product) (c : List CartLine) : List CartLine :=
  if (c.find? (fun item => item.id == p.id)).isSome then bumpFirst p.id c
  else c ++ [{ id := p.id, name := p.name, price := p.price, quantity := JsNum.num 1 }]

/-- Method `addToCart(product)` (script.js lines 13-23): mutate the cart, then
`saveCart()`, `updateCartUI()` (render only), and a success
notification. -/
def addToCart (p : Product) (s : Env) : Env :=
  showNotification "Product added to cart!" "success"
    (saveCart { s with cart := addCart p s.cart })

/-- Method `removeFromCart(productId)` (script.js lines 26-31):
`this.cart = this.cart.filter(item => item.id !== productId)`, then
`saveCart()`, `updateCartUI()`, and a success notification —
unconditionally, whether or not anything was removed. -/
def removeFromCart (pid : Int) (s : Env) : Env :=
  showNotification "Product removed from cart!" "success"
    (saveCart { s with cart := s.cart.filter (fun item => item.id != pid) })

/-- Statement `item.quantity = Math.max(1, quantity)` applied to the item found by
`this.cart.find(item => item.id === productId)`: the first line with the
given id gets its quantity replaced. -/
def setFirstQty (pid : Int) (q : JsNum) : List CartLine → List CartLine
  | [] => []
  | l :: ls =>
    if l.id = pid then { l with quantity := q } :: ls
    else l :: setFirstQty pid q ls

/-- Method `updateQuantity(productId, quantity)` (script.js lines 34-41): when a
line with the id exists, set its quantity to `Math.max(1, quantity)`,
then `saveCart()` and `updateCartUI()`; no notification.  When no line
matches, nothing at all happens. -/
def updateQuantity (pid : Int) (q : JsNum) (s : Env) : Env :=
  match s.cart.find? (fun item => item.id == pid) with
  | some _ => saveCart { s with cart := setFirstQty pid (jsMaxOne q) s.cart }
  | none => s

/-- Method `getCartTotal()` (script.js lines 44-46):
`this.cart.reduce((total, item) => total + (item.price * item.quantity), 0)`.
A pure function of the cart; it mutates nothing.  In the source this
fold runs in IEEE-754 double arithmetic, whose rounding this exact
`JsNum` reading does not capture, so no exactness or reordering
property of the total is claimed of this definition. -/
def getCartTotal (c : List CartLine) : JsNum :=
  c.foldl (fun total item => jsAdd total (jsMulP item.price item.quantity)) (JsNum.num 0)

/-- Numeric value of a maximal run of decimal digits. -/
def digitsVal (ds : List Char) : Nat :=
  ds.foldl (fun a c => a * 10 + (c.toNat - 48)) 0

/-- JavaScript `parseInt` on the strings a quantity input delivers: skip
leading whitespace, an optional sign, then a maximal run of decimal
digits; `NaN` when no digit is found (so on `""` and on non-numeric
text). -/
def parseIntJS (s : String) : JsNum :=
  let cs := s.toList.dropWhile (fun c => c.isWhitespace)
  let signed : Int × List Char :=
    match cs with
    | '-' :: r => (-1, r)
    | '+' :: r => (1, r)
    | _ => (1, cs)
  let ds := signed.2.takeWhile (fun c => c.isDigit)
  if ds.isEmpty then JsNum.nan
  else JsNum.num ((signed.1 * (digitsVal ds : Int) : Int) : ℚ)

/-- The change handler rendered at script.js lines 105-106:
`onchange="AppState.updateQuantity(item.id, parseInt(this.value))"`. -/
def handleQuantityChange (pid : Int) (value : String) (s : Env) : Env :=
  updateQuantity pid (parseIntJS value) s

/-- Hydration `JSON.parse(localStorage.getItem('cart')) || []` (script.js line 4):
an absent key makes `getItem` return `null`, and `JSON.parse(null)`
parses the coerced string `"null"` to the JSON `null` value, which
`|| []` replaces by the empty array; a malformed stored string makes
`JSON.parse` throw, and nothing catches the exception; a well-formed
stored string yields its value, with `|| []` replacing a falsy one. -/
def hydrateCart : StoreContent → Except String Json
  | StoreContent.absent => Except.ok (jsOr Json.null (Json.arr []))
  | StoreContent.malformed => Except.error "SyntaxError: Unexpected token"
  | StoreContent.json v => Except.ok (jsOr v (Json.arr []))

/-- The checkout branch of `handleFormSubmission` (script.js lines
396-407) under the submit-handler wrapper (lines 349-356).  The argument
is the outcome of `ApiService.createOrder`: on success the cart is
cleared, `saveCart()` runs, and the wrapper emits a success
notification; when `createOrder` throws, the wrapper catches the error
and emits its message — the cart is untouched and nothing is written. -/
def handleCheckoutSubmission (apiResult : Except String Json) (s : Env) : Env :=
  match apiResult with
  | Except.ok _ =>
      showNotification "Form submitted successfully!" "success"
        (saveCart { s with cart := [] })
  | Except.error msg => showNotification msg "error" s

/-- Reading one stored line back into the typed model: the exact object
shape `encodeLine` produces, with an integral `id` and numeric fields.
A `null` quantity (the serialization of `NaN`) has no `JsNum`
counterpart that behaves like the stored value, so it is rejected. -/
def decodeQty : Json → Option JsNum
  | Json.num q => some (JsNum.num q)
  | _ => none

/-- Decode one cart line from its JSON object form. -/
def decodeLine : Json → Option CartLine
  | Json.obj [("id", Json.num i), ("name", Json.str n),
              ("price", Json.num p), ("quantity", qj)] =>
    if i.den = 1 then
      (decodeQty qj).map (fun q => { id := i.num, name := n, price := p, quantity := q })
    else none
  | _ => none

/-- Decode a list of cart lines, failing if any element fails. -/
def decodeLines : List Json → Option (List CartLine)
  | [] => some []
  | j :: js =>
    match decodeLine j, decodeLines js with
    | some l, some ls => some (l :: ls)
    | _, _ => none

/-- Decode a stored cart value back into the typed model. -/
def decodeCart : Json → Option (List CartLine)
  | Json.arr js => decodeLines js
  | _ => none

/-- Cart states reachable from an empty cart, or from hydration of a
previously saved cart, via any sequence of `addToCart`,
`removeFromCart` and `updateQuantity` calls. -/
inductive ReachCart : List CartLine → Prop where
  | empty : ReachCart []
  | add (p : Product) (s : Env) (h : ReachCart s.cart) : ReachCart (addToCart p s).cart
  | remove (pid : Int) (s : Env) (h : ReachCart s.cart) :
      ReachCart (removeFromCart pid s).cart
  | update (pid : Int) (q : JsNum) (s : Env) (h : ReachCart s.cart) :
      ReachCart (updateQuantity pid q s).cart
  | hydrate (s : Env) (h : ReachCart s.cart) (v : Json) (c' : List CartLine)
      (hv : hydrateCart (saveCart s).store = Except.ok v)
      (hc : decodeCart v = some c') : ReachCart c'

/-! Helper lemmas shared by several results. -/

/-- A cart in which no line carries the given id has no find result. -/
theorem find?_id_eq_none {c : List CartLine} {pid : Int}
    (h : ∀ l ∈ c, l.id ≠ pid) :
    c.find? (fun item => item.id == pid) = none :=
  List.find?_eq_none.mpr (fun x hx => by simpa using h x hx)

/-- Bumping a quantity does not change the ids. -/
theorem bumpFirst_map_id (pid : Int) (c : List CartLine) :
    (bumpFirst pid c).map CartLine.id = c.map CartLine.id := by
  induction c with
  | nil => rfl
  | cons l ls ih =>
    by_cases h : l.id = pid
    · simp [bumpFirst, h]
    · simp [bumpFirst, h, ih]

/-- Setting a quantity does not change the ids. -/
theorem setFirstQty_map_id (pid : Int) (q : JsNum) (c : List CartLine) :
    (setFirstQty pid q c).map CartLine.id = c.map CartLine.id := by
  induction c with
  | nil => rfl
  | cons l ls ih =>
    by_cases h : l.id = pid
    · simp [setFirstQty, h]
    · simp [setFirstQty, h, ih]

/-- Adding to a cart with no matching line appends a fresh line of
quantity one. -/
theorem addCart_absent {c : List CartLine} {p : Product}
    (h : ∀ l ∈ c, l.id ≠ p.id) :
    addCart p c
      = c ++ [{ id := p.id, name := p.name, price := p.price, quantity := JsNum.num 1 }] := by
  simp [addCart, find?_id_eq_none h]

/-- Bumping in a cart whose only matching line is the appended last one
increments exactly that line. -/
theorem bumpFirst_append {c : List CartLine} {pid : Int}
    (h : ∀ l ∈ c, l.id ≠ pid) (x : CartLine) (hx : x.id = pid) :
    bumpFirst pid (c ++ [x])
      = c ++ [{ x with quantity := jsAdd x.quantity (JsNum.num 1) }] := by
  induction c with
  | nil => simp [bumpFirst, hx]
  | cons l ls ih =>
    have hl : l.id ≠ pid := h l (List.mem_cons_self l ls)
    simp [bumpFirst, hl, ih (fun a ha => h a (List.mem_cons_of_mem l ha))]

/-- The find used by addToCart succeeds on a cart ending in a matching
line. -/
theorem find?_append_isSome {c : List CartLine} (pid : Int)
    (x : CartLine) (hx : x.id = pid) :
    ((c ++ [x]).find? (fun item => item.id == pid)).isSome = true :=
  List.find?_isSome.mpr ⟨x, by simp, by simp [hx]⟩

/-- Adding to a cart whose only matching line is the appended last one
increments exactly that line. -/
theorem addCart_append {c : List CartLine} {p : Product}
    (h : ∀ l ∈ c, l.id ≠ p.id) (x : CartLine) (hx : x.id = p.id) :
    addCart p (c ++ [x])
      = c ++ [{ x with quantity := jsAdd x.quantity (JsNum.num 1) }] := by
  rw [addCart, if_pos]
  · exact bumpFirst_append h x hx
  · exact of_decide_eq_true (by simpa using find?_append_isSome p.id x hx)

/-- The cart component of addToCart is addCart. -/
theorem addToCart_cart (p : Product) (s : Env) :
    (addToCart p s).cart = addCart p s.cart := rfl

/-- Iterating addToCart acts on the cart as the iterated pure cart
transition. -/
theorem addToCart_iter_cart (p : Product) (s : Env) (n : Nat) :
    ((addToCart p)^[n] s).cart = (addCart p)^[n] s.cart := by
  induction n generalizing s with
  | zero => rfl
  | succ n ih =>
    rw [Function.iterate_succ_apply, Function.iterate_succ_apply, ih (addToCart p s),
        addToCart_cart]

/-- Iterating the pure add transition n times on a cart free of the
product's id appends one line of quantity n. -/
theorem addCart_iter (p : Product) {c : List CartLine}
    (h : ∀ l ∈ c, l.id ≠ p.id) :
    ∀ n : Nat, 1 ≤ n →
      (addCart p)^[n] c
        = c ++ [{ id := p.id, name := p.name, price := p.price,
                  quantity := JsNum.num (n : ℚ) }]
  | 1, _ => by
    rw [Function.iterate_one, addCart_absent h]
    norm_num
  | n + 2, _ => by
    rw [Function.iterate_succ_apply', addCart_iter p h (n + 1) (by omega),
        addCart_append h _ rfl]
    congr 2
    simp only [jsAdd]
    congr 1
    push_cast
    ring_nf

/-- Setting the quantity of the first matching line is reflected by the
find the renderer and updateQuantity use. -/
theorem find?_setFirstQty {c : List CartLine} {pid : Int} {l₀ : CartLine}
    (h : c.find? (fun item => item.id == pid) = some l₀) (q : JsNum) :
    (setFirstQty pid q c).find? (fun item => item.id == pid)
      = some { l₀ with quantity := q } := by
  induction c with
  | nil => simp at h
  | cons l ls ih =>
    by_cases hl : l.id = pid
    · rw [List.find?_cons_of_pos _ (by simp [hl])] at h
      obtain rfl : l = l₀ := Option.some.inj h
      simp [setFirstQty, hl, List.find?_cons_of_pos]
    · rw [List.find?_cons_of_neg _ (by simp [hl])] at h
      rw [setFirstQty, if_neg hl, List.find?_cons_of_neg _ (by simp [hl])]
      exact ih h

/-- Decoding an encoded line gives back that line when it succeeds. -/
theorem decodeLine_encodeLine {l l' : CartLine}
    (h : decodeLine (encodeLine l) = some l') : l' = l := by
  obtain ⟨i, n, pr, q⟩ := l
  cases q with
  | num qv =>
    simp [encodeLine, encodeJsNum, decodeLine, decodeQty,
          Rat.den_intCast, Rat.num_intCast] at h
    exact h.symm
  | nan =>
    simp [encodeLine, encodeJsNum, decodeLine, decodeQty, Rat.den_intCast] at h

/-- Decoding an encoded cart gives back that cart when it succeeds. -/
theorem decodeLines_encode {c : List CartLine} : ∀ {c' : List CartLine},
    decodeLines (c.map encodeLine) = some c' → c' = c := by
  induction c with
  | nil =>
    intro c' h
    simp [decodeLines] at h
    exact h
  | cons l ls ih =>
    intro c' h
    rw [List.map_cons, decodeLines] at h
    cases hd : decodeLine (encodeLine l) with
    | none => rw [hd] at h; simp at h
    | some l₁ =>
      cases ht : decodeLines (ls.map encodeLine) with
      | none => rw [hd, ht] at h; simp at h
      | some ls₁ =>
        rw [hd, ht] at h
        simp only [Option.some.injEq] at h
        rw [← h, decodeLine_encodeLine hd, ih ht]

/-- Decoding an encoded cart value gives back that cart when it
succeeds. -/
theorem decodeCart_encodeCart {c c' : List CartLine}
    (h : decodeCart (encodeCart c) = some c') : c' = c :=
  decodeLines_encode h

/-- When every quantity is numeric, decoding the encoded cart
succeeds and reproduces the cart. -/
theorem decodeLines_encode_of_num {c : List CartLine}
    (h : ∀ l ∈ c, ∃ q : ℚ, l.quantity = JsNum.num q) :
    decodeLines (c.map encodeLine) = some c := by
  induction c with
  | nil => rfl
  | cons l ls ih =>
    obtain ⟨q, hq⟩ := h l (List.mem_cons_self l ls)
    have hl : decodeLine (encodeLine l) = some l := by
      obtain ⟨i, nm, pr, qq⟩ := l
      simp only at hq
      subst hq
      simp [encodeLine, encodeJsNum, decodeLine, decodeQty,
            Rat.den_intCast, Rat.num_intCast]
    rw [List.map_cons, decodeLines, hl, ih (fun a ha => h a (List.mem_cons_of_mem l ha))]

/-- The add transition preserves distinctness of ids. -/
theorem nodupIds_addCart (p : Product) {c : List CartLine}
    (h : (c.map CartLine.id).Nodup) : ((addCart p c).map CartLine.id).Nodup := by
  by_cases hf : (c.find? (fun item => item.id == p.id)).isSome
  · rw [addCart, if_pos hf, bumpFirst_map_id]
    exact h
  · rw [addCart, if_neg hf, List.map_append]
    refine List.Nodup.append h (List.nodup_singleton _) ?_
    intro a ha hb
    obtain ⟨l, hl, rfl⟩ := List.mem_map.mp ha
    have : l.id = p.id := by simpa using hb
    exact hf (List.find?_isSome.mpr ⟨l, hl, by simp [this]⟩)

/-- The remove transition preserves distinctness of ids. -/
theorem nodupIds_removeFromCart (pid : Int) (s : Env)
    (h : (s.cart.map CartLine.id).Nodup) :
    (((removeFromCart pid s).cart).map CartLine.id).Nodup :=
  List.Nodup.sublist (List.Sublist.map CartLine.id (List.filter_sublist s.cart)) h

/-- The quantity-update transition preserves distinctness of ids. -/
theorem nodupIds_updateQuantity (pid : Int) (q : JsNum) (s : Env)
    (h : (s.cart.map CartLine.id).Nodup) :
    (((updateQuantity pid q s).cart).map CartLine.id).Nodup := by
  unfold updateQuantity
  cases hf : s.cart.find? (fun item => item.id == pid) with
  | none => exact h
  | some l =>
    show ((setFirstQty pid (jsMaxOne q) s.cart).map CartLine.id).Nodup
    rw [setFirstQty_map_id]
    exact h

/-! Sample inputs used by the concrete witnesses and counterexamples. -/

/-- An empty starting state: empty cart, nothing stored, nothing emitted. -/
def sampleEnv : Env :=
  { cart := [], store := StoreContent.absent, storeWrites := 0, notifs := [] }

/-- A catalog product (mockProducts entry 1). -/
def sampleProduct : Product :=
  { id := 1, name := "Wireless Headphones", price := 9999/100 }

/-- A state holding two distinct cart lines. -/
def twoLineEnv : Env :=
  { cart := [{ id := 1, name := "A", price := 10, quantity := JsNum.num 1 },
             { id := 2, name := "B", price := 3, quantity := JsNum.num 2 }],
    store := StoreContent.absent, storeWrites := 0, notifs := [] }

/-- C1: starting from a cart with no line of the given productId,
n consecutive addToCart calls with that product leave exactly one line
with that id, of quantity n; the first call appends a fresh line of
quantity 1 (and by the first conjunct, applied at n and n+1, each later
call increments that line's quantity by one). -/
theorem addToCart_repeated (s : Env) (p : Product) (n : Nat)
    (habsent : ∀ l ∈ s.cart, l.id ≠ p.id) (hn : 1 ≤ n) :
    ((addToCart p)^[n] s).cart
      = s.cart ++ [{ id := p.id, name := p.name, price := p.price,
                     quantity := JsNum.num (n : ℚ) }]
    ∧ ((addToCart p)^[n] s).cart.filter (fun l => l.id == p.id)
      = [{ id := p.id, name := p.name, price := p.price, quantity := JsNum.num (n : ℚ) }]
    ∧ (addToCart p s).cart
      = s.cart ++ [{ id := p.id, name := p.name, price := p.price,
                     quantity := JsNum.num 1 }] := by
  have hmain := addCart_iter p habsent n hn
  refine ⟨?_, ?_, ?_⟩
  · rw [addToCart_iter_cart, hmain]
  · rw [addToCart_iter_cart, hmain, List.filter_append]
    have h1 : s.cart.filter (fun l => l.id == p.id) = [] :=
      List.filter_eq_nil_iff.mpr (fun a ha => by simpa using habsent a ha)
    rw [h1]
    simp
  · rw [addToCart_cart, addCart_absent habsent]

/-- Witness for C1 at a concrete input: three adds of a product to the
empty cart. -/
theorem addToCart_repeated_witness :
    (∀ l ∈ sampleEnv.cart, l.id ≠ sampleProduct.id) ∧ 1 ≤ 3 ∧
    (((addToCart sampleProduct)^[3] sampleEnv).cart
      = sampleEnv.cart ++ [{ id := sampleProduct.id, name := sampleProduct.name,
                             price := sampleProduct.price, quantity := JsNum.num ((3 : Nat) : ℚ) }]
    ∧ ((addToCart sampleProduct)^[3] sampleEnv).cart.filter
          (fun l => l.id == sampleProduct.id)
      = [{ id := sampleProduct.id, name := sampleProduct.name,
           price := sampleProduct.price, quantity := JsNum.num ((3 : Nat) : ℚ) }]
    ∧ (addToCart sampleProduct sampleEnv).cart
      = sampleEnv.cart ++ [{ id := sampleProduct.id, name := sampleProduct.name,
                             price := sampleProduct.price, quantity := JsNum.num 1 }]) :=
  ⟨by simp [sampleEnv], by decide,
   addToCart_repeated sampleEnv sampleProduct 3 (by simp [sampleEnv]) (by decide)⟩

/-- C2: updateQuantity(id, q) with a line of that id present stores
max(1, q) as that line's quantity, whatever the sign or magnitude of the
integer q. -/
theorem updateQuantity_present (s : Env) (pid : Int) (q : Int)
    (h : ∃ l ∈ s.cart, l.id = pid) :
    ((updateQuantity pid (JsNum.num (q : ℚ)) s).cart.find?
        (fun item => item.id == pid)).map CartLine.quantity
      = some (JsNum.num (max 1 (q : ℚ))) := by
  obtain ⟨l₀, hfind⟩ : ∃ l₀, s.cart.find? (fun item => item.id == pid) = some l₀ := by
    refine Option.isSome_iff_exists.mp (List.find?_isSome.mpr ?_)
    obtain ⟨l, hl, he⟩ := h
    exact ⟨l, hl, by simp [he]⟩
  have hupd : updateQuantity pid (JsNum.num (q : ℚ)) s
      = saveCart { s with cart := setFirstQty pid (jsMaxOne (JsNum.num (q : ℚ))) s.cart } := by
    unfold updateQuantity
    rw [hfind]
  rw [hupd]
  show ((setFirstQty pid (jsMaxOne (JsNum.num (q : ℚ))) s.cart).find?
      (fun item => item.id == pid)).map CartLine.quantity = _
  rw [find?_setFirstQty hfind]
  rfl

/-- Witness for C2 at a concrete input: setting the quantity of a present
line to the negative integer -7 clamps it to 1 = max(1, -7). -/
theorem updateQuantity_present_witness :
    (∃ l ∈ twoLineEnv.cart, l.id = 1) ∧
    ((updateQuantity 1 (JsNum.num ((-7 : Int) : ℚ)) twoLineEnv).cart.find?
        (fun item => item.id == 1)).map CartLine.quantity
      = some (JsNum.num (max 1 ((-7 : Int) : ℚ))) :=
  ⟨⟨{ id := 1, name := "A", price := 10, quantity := JsNum.num 1 }, by simp [twoLineEnv], rfl⟩,
   updateQuantity_present twoLineEnv 1 (-7)
     ⟨{ id := 1, name := "A", price := 10, quantity := JsNum.num 1 }, by simp [twoLineEnv], rfl⟩⟩

/-- C3 counterexample: on a malformed stored value, hydration does not
return an empty cart — the JSON.parse error propagates, since line 4 of
script.js has no try/catch around
JSON.parse(localStorage.getItem('cart')). -/
theorem hydrateCart_malformed_error :
    hydrateCart StoreContent.malformed = Except.error "SyntaxError: Unexpected token" := rfl

/-- C3 amended: hydration returns an empty cart when the stored key is
absent, but when the stored value fails to deserialize the parse error
propagates to the caller instead of yielding an empty cart. -/
theorem hydrateCart_amended :
    hydrateCart StoreContent.absent = Except.ok (Json.arr [])
    ∧ decodeCart (Json.arr []) = some []
    ∧ ∃ e, hydrateCart StoreContent.malformed = Except.error e :=
  ⟨rfl, rfl, "SyntaxError: Unexpected token", rfl⟩

/-- A one-line cart state on which the quantity field's change event is
exercised. -/
def nanEnv : Env :=
  { cart := [{ id := 1, name := "Smart Watch", price := 29999/100, quantity := JsNum.num 2 }],
    store := StoreContent.absent, storeWrites := 0, notifs := [] }

/-- C4: a change event with zero or negative text clamps the stored
quantity to 1, but non-numeric text does NOT: parseInt yields NaN and
Math.max(1, NaN) is NaN, so the stored quantity becomes NaN rather than
the 1 the claim states. -/
theorem quantityChange_nonnumeric_nan :
    (handleQuantityChange 1 "abc" nanEnv).cart
      = [{ id := 1, name := "Smart Watch", price := 29999/100, quantity := JsNum.nan }]
    ∧ (handleQuantityChange 1 "0" nanEnv).cart
      = [{ id := 1, name := "Smart Watch", price := 29999/100, quantity := JsNum.num 1 }]
    ∧ (handleQuantityChange 1 "-5" nanEnv).cart
      = [{ id := 1, name := "Smart Watch", price := 29999/100, quantity := JsNum.num 1 }] := by
  refine ⟨?_, ?_, ?_⟩ <;> rfl

/-- C5: every cart state reachable from an empty cart or from hydration
of a previously saved cart, via any sequence of addToCart,
removeFromCart and updateQuantity calls, has pairwise distinct
productIds. -/
theorem reachable_cart_ids_nodup (c : List CartLine) (h : ReachCart c) :
    (c.map CartLine.id).Nodup := by
  induction h with
  | empty => simp
  | add p s _ ih =>
    rw [addToCart_cart]
    exact nodupIds_addCart p ih
  | remove pid s _ ih => exact nodupIds_removeFromCart pid s ih
  | update pid q s _ ih => exact nodupIds_updateQuantity pid q s ih
  | hydrate s _ v c' hv hc ih =>
    have hv' : v = encodeCart s.cart := by
      have : hydrateCart (saveCart s).store = Except.ok (encodeCart s.cart) := rfl
      rw [this] at hv
      exact (Except.ok.inj hv.symm)
    subst hv'
    rw [decodeCart_encodeCart hc]
    exact ih

/-- Witness for C5 at a concrete input: the cart reached by one add from
the empty state. -/
theorem reachable_cart_ids_nodup_witness :
    (((addToCart sampleProduct sampleEnv).cart).map CartLine.id).Nodup :=
  reachable_cart_ids_nodup _ (ReachCart.add sampleProduct sampleEnv ReachCart.empty)

/-- C7: when the order-creation call succeeds, the cart is cleared and
the persisted store holds the empty cart; when it fails, the cart and
the store are untouched (no write happens) and the failure's message is
surfaced as an error notification. -/
theorem checkout_success_clears_failure_preserves (s : Env) :
    (∀ v : Json,
        (handleCheckoutSubmission (Except.ok v) s).cart = []
      ∧ (handleCheckoutSubmission (Except.ok v) s).store = StoreContent.json (encodeCart []))
    ∧ ∀ msg : String,
        (handleCheckoutSubmission (Except.error msg) s).cart = s.cart
      ∧ (handleCheckoutSubmission (Except.error msg) s).store = s.store
      ∧ (handleCheckoutSubmission (Except.error msg) s).storeWrites = s.storeWrites
      ∧ (handleCheckoutSubmission (Except.error msg) s).notifs
          = s.notifs ++ [⟨msg, "error"⟩] :=
  ⟨fun _ => ⟨rfl, rfl⟩, fun _ => ⟨rfl, rfl, rfl, rfl⟩⟩

/-- C8 counterexample: removing an absent id (99) from a two-line cart
leaves the cart unchanged but DOES emit a notification — script.js line
30 runs showNotification unconditionally, so the claim that no
notification is emitted is false. -/
theorem removeFromCart_absent_notifies :
    (∀ l ∈ twoLineEnv.cart, l.id ≠ 99)
    ∧ (removeFromCart 99 twoLineEnv).cart = twoLineEnv.cart
    ∧ (removeFromCart 99 twoLineEnv).notifs ≠ twoLineEnv.notifs := by
  refine ⟨by decide, by decide, by decide⟩

/-- C8 amended: removeFromCart with an id absent from the cart leaves
the cart contents unchanged, but still performs a persistence write and
emits the usual success notification. -/
theorem removeFromCart_absent_amended (s : Env) (pid : Int)
    (h : ∀ l ∈ s.cart, l.id ≠ pid) :
    (removeFromCart pid s).cart = s.cart
    ∧ (removeFromCart pid s).storeWrites = s.storeWrites + 1
    ∧ (removeFromCart pid s).notifs
        = s.notifs ++ [⟨"Product removed from cart!", "success"⟩] := by
  refine ⟨?_, rfl, rfl⟩
  show s.cart.filter (fun item => item.id != pid) = s.cart
  exact List.filter_eq_self.mpr (fun a ha => by simpa using h a ha)

/-- Witness for the amended C8 at a concrete input. -/
theorem removeFromCart_absent_amended_witness :
    (∀ l ∈ twoLineEnv.cart, l.id ≠ 99)
    ∧ ((removeFromCart 99 twoLineEnv).cart = twoLineEnv.cart
      ∧ (removeFromCart 99 twoLineEnv).storeWrites = twoLineEnv.storeWrites + 1
      ∧ (removeFromCart 99 twoLineEnv).notifs
          = twoLineEnv.notifs ++ [⟨"Product removed from cart!", "success"⟩]) :=
  ⟨by decide, removeFromCart_absent_amended twoLineEnv 99 (by decide)⟩

/-- C9: updateQuantity with an id absent from the cart is a complete
no-op — the state is unchanged, so in particular no persistence write
happens and no notification is emitted. -/
theorem updateQuantity_absent_noop (s : Env) (pid : Int) (q : JsNum)
    (h : ∀ l ∈ s.cart, l.id ≠ pid) :
    updateQuantity pid q s = s := by
  unfold updateQuantity
  rw [find?_id_eq_none h]

/-- Witness for C9 at a concrete input. -/
theorem updateQuantity_absent_noop_witness :
    (∀ l ∈ twoLineEnv.cart, l.id ≠ 42)
    ∧ updateQuantity 42 (JsNum.num 5) twoLineEnv = twoLineEnv :=
  ⟨by decide, updateQuantity_absent_noop twoLineEnv 42 (JsNum.num 5) (by decide)⟩

/-- C10: for a cart whose lines have integer ids (by type), positive
integer quantities and non-negative prices, saving and then hydrating
reproduces the cart exactly: hydration returns precisely the stored
encoding, and decoding that encoding gives back the cart. -/
theorem save_hydrate_roundtrip (s : Env)
    (h : ∀ l ∈ s.cart, (∃ n : Int, l.quantity = JsNum.num (n : ℚ) ∧ 1 ≤ n) ∧ 0 ≤ l.price) :
    hydrateCart (saveCart s).store = Except.ok (encodeCart s.cart)
    ∧ decodeCart (encodeCart s.cart) = some s.cart := by
  constructor
  · rfl
  · show decodeLines (s.cart.map encodeLine) = some s.cart
    apply decodeLines_encode_of_num
    intro l hl
    obtain ⟨⟨n, hn, _⟩, _⟩ := h l hl
    exact ⟨(n : ℚ), hn⟩

/-- Witness for C10 at a concrete input: the two-line cart. -/
theorem save_hydrate_roundtrip_witness :
    (∀ l ∈ twoLineEnv.cart, (∃ n : Int, l.quantity = JsNum.num (n : ℚ) ∧ 1 ≤ n) ∧ 0 ≤ l.price)
    ∧ (hydrateCart (saveCart twoLineEnv).store = Except.ok (encodeCart twoLineEnv.cart)
      ∧ decodeCart (encodeCart twoLineEnv.cart) = some twoLineEnv.cart) := by
  have hw : ∀ l ∈ twoLineEnv.cart,
      (∃ n : Int, l.quantity = JsNum.num (n : ℚ) ∧ 1 ≤ n) ∧ 0 ≤ l.price := by
    intro l hl
    simp only [twoLineEnv, List.mem_cons, List.mem_singleton, List.not_mem_nil, or_false] at hl
    rcases hl with rfl | rfl
    · exact ⟨⟨1, by norm_num, by norm_num⟩, by norm_num⟩
    · exact ⟨⟨2, by norm_num, by norm_num⟩, by norm_num⟩
  exact ⟨hw, save_hydrate_roundtrip twoLineEnv hw⟩

/-- Witness for C7 at a concrete input: a successful and a failed
checkout from the two-line cart. -/
theorem checkout_success_clears_failure_preserves_witness :
    (handleCheckoutSubmission (Except.ok Json.null) twoLineEnv).cart = []
    ∧ (handleCheckoutSubmission (Except.error "Network error") twoLineEnv).cart
        = twoLineEnv.cart :=
  ⟨((checkout_success_clears_failure_preserves twoLineEnv).1 Json.null).1,
   ((checkout_success_clears_failure_preserves twoLineEnv).2 "Network error").1⟩
